import Mathlib

/-!
Verification development for the image-captioning training script
(`training.py`).  The script is pure sequential orchestration: it logs in
to the experiment tracker, loads three JSON mappings, optionally reduces
them, fits a text-vectorization tokenizer, splits the validation mapping,
builds batched datasets, assembles and trains the captioning model, runs
definitive evaluations, and persists four artifacts.

The embedding is a trace semantics: every observable action of the script
(file reads, tracker calls, prints, dataset/model constructions, artifact
writes) is an `Event`, and the whole script is a function from its static
settings plus the behaviour of its external collaborators to the list of
events it performs, together with an optional uncaught exception.
External collaborator modules (`dataset`, `model`, `settings`,
`custom_schedule`, `utility`, the deep-learning framework and the tracker
client) are not part of the repository; their behaviour enters as opaque
record fields, except where a claim forces a spec-modelled definition.

Numeric training metrics (losses, accuracies) are represented by `Int`
stand-ins: no claim depends on floating-point arithmetic, only on which
values are plumbed where.
-/

/-- Error stand-in for a Python exception propagating out of the script. -/
abbrev Err := String

/-- A JSON sample mapping: image identifier to its list of caption strings,
as loaded from one of the dataset JSON files. -/
abbrev Data := List (String × List String)

/-- Value attached to a key in a tracker metric-logging call: an `Int`
metric stand-in, a sample count, or Python `None`. -/
inductive LogValue where
  | num (v : Int)
  | nat (n : Nat)
  | null
  deriving DecidableEq, Repr

/-- Dictionary lookup with a default of `None`, as in `logs.get(k, None)`
inside the epoch-end callback. -/
def logs_get (logs : List (String × Int)) (k : String) : LogValue :=
  match logs.lookup k with
  | some v => LogValue.num v
  | none => LogValue.null

/-- Direct dictionary indexing `logs[k]`: raises `KeyError` when the key is
absent. -/
def dict_index (logs : List (String × Int)) (k : String) : Except Err Int :=
  match logs.lookup k with
  | some v => Except.ok v
  | none => Except.error ("KeyError: " ++ k)

/-- Body of the `on_batch_end` lambda of the logging callback: builds the
key-value mapping handed to `wandb.log`, indexing `logs` directly at
`loss` and `acc` (left to right), so a missing key raises. -/
def wandb_on_batch_end (_batch : Nat) (logs : List (String × Int)) :
    Except Err (List (String × LogValue)) :=
  match dict_index logs "loss" with
  | Except.error e => Except.error e
  | Except.ok l =>
    match dict_index logs "acc" with
    | Except.error e => Except.error e
    | Except.ok a =>
      Except.ok [("batch_train_loss", LogValue.num l),
                 ("batch_train_accuracy", LogValue.num a)]

/-- Body of the `on_epoch_end` lambda of the logging callback: indexes
`logs` directly at `loss` (the `epoch_train_accuracy` entry is commented
out in the source) and reads the validation metrics with the defaulting
`logs.get(-, None)` lookup. -/
def wandb_on_epoch_end (_epoch : Nat) (logs : List (String × Int)) :
    Except Err (List (String × LogValue)) :=
  match dict_index logs "loss" with
  | Except.error e => Except.error e
  | Except.ok l =>
    Except.ok [("epoch_train_loss", LogValue.num l),
               ("epoch_valid_loss", logs_get logs "val_loss"),
               ("epoch_valid_accuracy", logs_get logs "val_acc")]

/-- A keras `LambdaCallback`: the two lifecycle hooks the script installs. -/
structure LambdaCallback where
  on_batch_end : Nat → List (String × Int) → Except Err (List (String × LogValue))
  on_epoch_end : Nat → List (String × Int) → Except Err (List (String × LogValue))

/-- The metric-logging callback handed to `fit`. -/
def wandb_callback : LambdaCallback :=
  { on_batch_end := wandb_on_batch_end
    on_epoch_end := wandb_on_epoch_end }

/-- Configuration of a keras `EarlyStopping` callback, as far as the script
sets it. -/
structure EarlyStopping where
  monitor : String
  patience : Nat
  restore_best_weights : Bool

/-- The early-stopping callback: `EarlyStopping(patience=3,
restore_best_weights=True)`.  The `monitor` argument is left at its
framework default; modelled from the spec, which describes it as "early
stopping on a monitored validation criterion" (the framework default
monitored quantity is the validation loss, `val_loss`). -/
def early_stopping : EarlyStopping :=
  { monitor := "val_loss", patience := 3, restore_best_weights := true }

/-- State of the `TextVectorization` tokenizer as the script configures it:
maximum vocabulary size, fixed output sequence length, the external custom
standardization function, unigram tokenization, and the learned vocabulary
(empty until `adapt` runs). -/
structure Tokenizer where
  max_tokens : Nat
  output_sequence_length : Nat
  standardize : String → String
  ngrams : Nat
  vocab : List String

/-- The `get_vocabulary()` accessor of the tokenizer. -/
def Tokenizer.get_vocabulary (t : Tokenizer) : List String := t.vocab

/-- Which of the three input JSON files a load targets. -/
inductive InputFile where
  | trainJson
  | validJson
  | textJson
  deriving DecidableEq, Repr

/-- The split a dataset construction or evaluation belongs to. -/
inductive SplitName where
  | train
  | valid
  | test
  deriving DecidableEq, Repr

/-- The callbacks the script installs into the fit loop, by name. -/
inductive CallbackName where
  | early_stopping
  | wandb_callback
  deriving DecidableEq, Repr

/-- A batched tensor dataset as produced by the external `make_dataset`
routine, recorded by the arguments the script hands it: parallel image and
caption sequences, the augmentation flag, and the tokenizer captured by
reference. -/
structure Dataset where
  images : List String
  captions : List (List String)
  data_aug : Bool
  tokenizer : Tokenizer

/-- The external `make_dataset` collaborator, opaque except for the
arguments it captures. -/
def make_dataset (images : List String) (captions : List (List String))
    (data_aug : Bool) (tokenizer : Tokenizer) : Dataset :=
  { images := images, captions := captions, data_aug := data_aug, tokenizer := tokenizer }

/-- A line the script writes to standard output, tagged by which print
statement produced it and carrying the interpolated values. -/
inductive PrintLine where
  | tfVersion (v : String)
  | numGPUs (n : Nat)
  | numTrainSamples (n : Nat)
  | numValidSamples (n : Nat)
  | numValidAfterSplit (n : Nat)
  | numTestSamples (n : Nat)
  | trainMetrics (loss acc : Int)
  | validMetrics (loss acc : Int)
  | testMetrics (loss acc : Int)

/-- Constructor tag of a printed line. -/
inductive PKind where
  | tfVersion
  | numGPUs
  | numTrainSamples
  | numValidSamples
  | numValidAfterSplit
  | numTestSamples
  | trainMetrics
  | validMetrics
  | testMetrics
  deriving DecidableEq, Repr

/-- Tag of a printed line. -/
def PrintLine.kind : PrintLine → PKind
  | .tfVersion _ => .tfVersion
  | .numGPUs _ => .numGPUs
  | .numTrainSamples _ => .numTrainSamples
  | .numValidSamples _ => .numValidSamples
  | .numValidAfterSplit _ => .numValidAfterSplit
  | .numTestSamples _ => .numTestSamples
  | .trainMetrics _ _ => .trainMetrics
  | .validMetrics _ _ => .validMetrics
  | .testMetrics _ _ => .testMetrics

/-- One observable action of the training script, in program order. -/
inductive Event where
  | openRead (path : String)
  | wandbLogin (key : String)
  | wandbInit (project : String) (entity : String)
  | print (line : PrintLine)
  | jsonLoad (which : InputFile) (path : String)
  | wandbLog (entries : List (String × LogValue))
  | adaptTokenizer (corpus : List String)
  | makeDataset (split : SplitName) (ds : Dataset)
  | getCnnModel
  | mkEncoder (embed_dim dense_dim num_heads : Nat)
  | mkDecoder (embed_dim ff_dim num_heads vocab_size : Nat)
  | mkCaptionModel
  | compileModel
  | fit (train_ds valid_ds : Dataset) (epochs : Nat) (callbacks : List CallbackName)
  | evaluate (split : SplitName) (ds : Dataset) (batch_size : Nat)
  | writeHistoryJson (path : String) (history : List (String × List Int))
  | saveWeights (path : String)
  | runSaveFile (path : String)
  | writeConfigJson (path : String) (config : List (String × Nat))
  | saveTokenizer (dir : String) (tok : Tokenizer)
  | runFinish

/-- Constructor tag of an event. -/
inductive EKind where
  | openRead
  | wandbLogin
  | wandbInit
  | print
  | jsonLoad
  | wandbLog
  | adaptTokenizer
  | makeDataset
  | getCnnModel
  | mkEncoder
  | mkDecoder
  | mkCaptionModel
  | compileModel
  | fit
  | evaluate
  | writeHistoryJson
  | saveWeights
  | runSaveFile
  | writeConfigJson
  | saveTokenizer
  | runFinish
  deriving DecidableEq, Repr

/-- Tag of an event. -/
def Event.kind : Event → EKind
  | .openRead _ => .openRead
  | .wandbLogin _ => .wandbLogin
  | .wandbInit _ _ => .wandbInit
  | .print _ => .print
  | .jsonLoad _ _ => .jsonLoad
  | .wandbLog _ => .wandbLog
  | .adaptTokenizer _ => .adaptTokenizer
  | .makeDataset _ _ => .makeDataset
  | .getCnnModel => .getCnnModel
  | .mkEncoder _ _ _ => .mkEncoder
  | .mkDecoder _ _ _ _ => .mkDecoder
  | .mkCaptionModel => .mkCaptionModel
  | .compileModel => .compileModel
  | .fit _ _ _ _ => .fit
  | .evaluate _ _ _ => .evaluate
  | .writeHistoryJson _ _ => .writeHistoryJson
  | .saveWeights _ => .saveWeights
  | .runSaveFile _ => .runSaveFile
  | .writeConfigJson _ _ => .writeConfigJson
  | .saveTokenizer _ _ => .saveTokenizer
  | .runFinish => .runFinish

/-- Static configuration of the run, as imported by `from settings import *`. -/
structure Settings where
  train_data_json_path : String
  valid_data_json_path : String
  text_data_json_path : String
  SAVE_DIR : String
  REDUCE_DATASET : Bool
  TEST_SET : Bool
  TRAIN_SET_AUG : Bool
  VALID_SET_AUG : Bool
  IMAGE_SIZE : Nat
  MAX_VOCAB_SIZE : Nat
  SEQ_LENGTH : Nat
  EMBED_DIM : Nat
  NUM_HEADS : Nat
  FF_DIM : Nat
  BATCH_SIZE : Nat
  EPOCHS : Nat

/-- Behaviour of the external world and collaborator modules on a run on
which every external interaction succeeds: file contents, the reduction
and splitting policies of the `dataset` module, the tokenizer adaptation
result, and the framework results of training and evaluation. -/
structure Externals where
  apiKeyContents : String
  tfVersion : String
  numGPUs : Nat
  trainData : Data
  validData : Data
  textData : List String
  custom_standardization : String → String
  adaptVocab : List String → List String
  reduce_dataset_dim : Data → Data → Data × Data
  valid_test_split : Data → Data × Data
  fitHistory : List (String × List Int)
  evalMetrics : SplitName → Int × Int

/-- Behaviour of the external world when any individual interaction may
instead raise an exception. -/
structure ExtF where
  readApiKeyFile : Except Err String
  loginResult : String → Except Err Unit
  loadTrain : Except Err Data
  loadValid : Except Err Data
  loadText : Except Err (List String)
  custom_standardization : String → String
  adaptVocab : List String → List String
  reduce_dataset_dim : Data → Data → Data × Data
  valid_test_split : Data → Data × Data
  tfVersion : String
  numGPUs : Nat
  fitResult : Except Err (List (String × List Int))
  evalResult : SplitName → Except Err (Int × Int)
  writeHistoryResult : Except Err Unit
  saveWeightsResult : Except Err Unit
  writeConfigResult : Except Err Unit
  saveTokenizerResult : Except Err Unit

/-- All-success fallible view of a pure external behaviour. -/
def Externals.toF (E : Externals) : ExtF :=
  { readApiKeyFile := Except.ok E.apiKeyContents
    loginResult := fun _ => Except.ok ()
    loadTrain := Except.ok E.trainData
    loadValid := Except.ok E.validData
    loadText := Except.ok E.textData
    custom_standardization := E.custom_standardization
    adaptVocab := E.adaptVocab
    reduce_dataset_dim := E.reduce_dataset_dim
    valid_test_split := E.valid_test_split
    tfVersion := E.tfVersion
    numGPUs := E.numGPUs
    fitResult := Except.ok E.fitHistory
    evalResult := fun s => Except.ok (E.evalMetrics s)
    writeHistoryResult := Except.ok ()
    saveWeightsResult := Except.ok ()
    writeConfigResult := Except.ok ()
    saveTokenizerResult := Except.ok () }

/-- Prefix an event onto the trace of a continuation. -/
def withEv (ev : Event) (k : List Event × Option Err) : List Event × Option Err :=
  (ev :: k.1, k.2)

/-- Prefix an event onto a continuation only when the flag is set. -/
def condEv (b : Bool) (ev : Event) (k : List Event × Option Err) : List Event × Option Err :=
  if b then withEv ev k else k

/-- Trace semantics of `training.py`, top to bottom.  Every observable
action appends an `Event`; every fallible external interaction is checked
in program order, and on failure the remaining script is skipped and the
exception is returned uncaught, exactly as an unhandled Python exception
would terminate the process. -/
def training_script (cfg : Settings) (E : ExtF) : List Event × Option Err :=
  withEv (.openRead "apikey.txt") <|
  match E.readApiKeyFile with
  | Except.error e => ([], some e)
  | Except.ok contents =>
  let api_key := contents.trim
  withEv (.wandbLogin api_key) <|
  match E.loginResult api_key with
  | Except.error e => ([], some e)
  | Except.ok _ =>
  withEv (.wandbInit "image-labeling-project" "dulcich") <|
  withEv (.print (.tfVersion E.tfVersion)) <|
  withEv (.print (.numGPUs E.numGPUs)) <|
  withEv (.jsonLoad .trainJson cfg.train_data_json_path) <|
  match E.loadTrain with
  | Except.error e => ([], some e)
  | Except.ok train_data0 =>
  withEv (.jsonLoad .validJson cfg.valid_data_json_path) <|
  match E.loadValid with
  | Except.error e => ([], some e)
  | Except.ok valid_data0 =>
  withEv (.jsonLoad .textJson cfg.text_data_json_path) <|
  match E.loadText with
  | Except.error e => ([], some e)
  | Except.ok text_data =>
  let reduced :=
    if cfg.REDUCE_DATASET then E.reduce_dataset_dim train_data0 valid_data0
    else (train_data0, valid_data0)
  let train_data := reduced.1
  let valid_data := reduced.2
  withEv (.print (.numTrainSamples train_data.length)) <|
  withEv (.print (.numValidSamples valid_data.length)) <|
  withEv (.wandbLog [("Number of training samples", LogValue.nat train_data.length),
                     ("Number of validation samples", LogValue.nat valid_data.length)]) <|
  let tokenizer0 : Tokenizer :=
    { max_tokens := cfg.MAX_VOCAB_SIZE
      output_sequence_length := cfg.SEQ_LENGTH
      standardize := E.custom_standardization
      ngrams := 1
      vocab := [] }
  let tokenizer := { tokenizer0 with vocab := E.adaptVocab text_data }
  withEv (.adaptTokenizer text_data) <|
  let VOCAB_SIZE := tokenizer.get_vocabulary.length
  let split := E.valid_test_split valid_data
  let valid_data2 := split.1
  let test_data := split.2
  withEv (.print (.numValidAfterSplit valid_data2.length)) <|
  withEv (.print (.numTestSamples test_data.length)) <|
  let train_dataset :=
    make_dataset (train_data.map Prod.fst) (train_data.map Prod.snd) cfg.TRAIN_SET_AUG tokenizer
  let valid_dataset :=
    make_dataset (valid_data2.map Prod.fst) (valid_data2.map Prod.snd) cfg.VALID_SET_AUG tokenizer
  let test_dataset :=
    make_dataset (test_data.map Prod.fst) (test_data.map Prod.snd) false tokenizer
  withEv (.makeDataset .train train_dataset) <|
  withEv (.makeDataset .valid valid_dataset) <|
  condEv cfg.TEST_SET (.makeDataset .test test_dataset) <|
  withEv .getCnnModel <|
  withEv (.mkEncoder cfg.EMBED_DIM cfg.FF_DIM cfg.NUM_HEADS) <|
  withEv (.mkEncoder cfg.EMBED_DIM cfg.FF_DIM cfg.NUM_HEADS) <|
  withEv (.mkDecoder cfg.EMBED_DIM cfg.FF_DIM cfg.NUM_HEADS VOCAB_SIZE) <|
  withEv .mkCaptionModel <|
  withEv .compileModel <|
  withEv (.fit train_dataset valid_dataset cfg.EPOCHS
            [CallbackName.early_stopping, CallbackName.wandb_callback]) <|
  match E.fitResult with
  | Except.error e => ([], some e)
  | Except.ok history =>
  withEv (.evaluate .train train_dataset cfg.BATCH_SIZE) <|
  match E.evalResult .train with
  | Except.error e => ([], some e)
  | Except.ok train_metrics =>
  withEv (.evaluate .valid valid_dataset cfg.BATCH_SIZE) <|
  match E.evalResult .valid with
  | Except.error e => ([], some e)
  | Except.ok valid_metrics =>
  withEv (.wandbLog [("Train Loss", LogValue.num train_metrics.1),
                     ("Train Accuracy", LogValue.num train_metrics.2),
                     ("Valid Loss", LogValue.num valid_metrics.1),
                     ("Valid Accuracy", LogValue.num valid_metrics.2)]) <|
  let persistTail : List Event × Option Err :=
    withEv (.writeHistoryJson (cfg.SAVE_DIR ++ "history.json") history) <|
    match E.writeHistoryResult with
    | Except.error e => ([], some e)
    | Except.ok _ =>
    withEv (.saveWeights (cfg.SAVE_DIR ++ "big_model_weights_coco.weights.h5")) <|
    match E.saveWeightsResult with
    | Except.error e => ([], some e)
    | Except.ok _ =>
    withEv (.runSaveFile (cfg.SAVE_DIR ++ "big_model_weights_coco.weights.h5")) <|
    withEv (.writeConfigJson (cfg.SAVE_DIR ++ "config_train.json")
              [("IMAGE_SIZE", cfg.IMAGE_SIZE),
               ("MAX_VOCAB_SIZE", cfg.MAX_VOCAB_SIZE),
               ("SEQ_LENGTH", cfg.SEQ_LENGTH),
               ("EMBED_DIM", cfg.EMBED_DIM),
               ("NUM_HEADS", cfg.NUM_HEADS),
               ("FF_DIM", cfg.FF_DIM),
               ("BATCH_SIZE", cfg.BATCH_SIZE),
               ("EPOCHS", cfg.EPOCHS),
               ("VOCAB_SIZE", VOCAB_SIZE)]) <|
    match E.writeConfigResult with
    | Except.error e => ([], some e)
    | Except.ok _ =>
    withEv (.saveTokenizer cfg.SAVE_DIR tokenizer) <|
    match E.saveTokenizerResult with
    | Except.error e => ([], some e)
    | Except.ok _ =>
    withEv .runFinish ([], none)
  if cfg.TEST_SET then
    withEv (.evaluate .test test_dataset cfg.BATCH_SIZE) <|
    match E.evalResult .test with
    | Except.error e => ([], some e)
    | Except.ok test_metrics =>
    withEv (.wandbLog [("Test Loss", LogValue.num test_metrics.1),
                       ("Test Accuracy", LogValue.num test_metrics.2)]) <|
    withEv (.print (.trainMetrics train_metrics.1 train_metrics.2)) <|
    withEv (.print (.validMetrics valid_metrics.1 valid_metrics.2)) <|
    withEv (.print (.testMetrics test_metrics.1 test_metrics.2)) <|
    persistTail
  else
    withEv (.print (.trainMetrics train_metrics.1 train_metrics.2)) <|
    withEv (.print (.validMetrics valid_metrics.1 valid_metrics.2)) <|
    persistTail

/-- The event trace of a run on which every external interaction succeeds. -/
def training_run (cfg : Settings) (E : Externals) : List Event :=
  (training_script cfg E.toF).1

/-- Modelled from the spec: the vocabulary tokens reserved by the
text-vectorization component (padding and out-of-vocabulary markers),
which the spec counts as "reserved tokens" on top of corpus-derived
tokens.  The component itself lives in the external framework, not in
this repository. -/
def reservedTokens : List String := ["", "[UNK]"]

/-- Modelled from the spec: the unique unigram tokens derived from a text
corpus after applying the (external) standardization function — each
string is standardized, split on spaces, empty tokens dropped, and
duplicates removed keeping first occurrences. -/
def uniqueTokens (standardize : String → String) (corpus : List String) : List String :=
  (((corpus.map standardize).map (fun s => s.splitOn " ")).flatten.filter (fun t => t ≠ "")).dedup

/-- Modelled from the spec: the vocabulary produced by adapting the
text-vectorization component on a corpus — the reserved tokens followed
by the unique corpus-derived tokens. -/
def adaptVocabulary (standardize : String → String) (corpus : List String) : List String :=
  reservedTokens ++ uniqueTokens standardize corpus

/-- The train/valid mappings after the optional reduction step. -/
def reducedData (cfg : Settings) (E : Externals) : Data × Data :=
  if cfg.REDUCE_DATASET then E.reduce_dataset_dim E.trainData E.validData
  else (E.trainData, E.validData)

/-- The tokenizer state after the single `adapt` pass of the run. -/
def adaptedTokenizer (cfg : Settings) (E : Externals) : Tokenizer :=
  { max_tokens := cfg.MAX_VOCAB_SIZE
    output_sequence_length := cfg.SEQ_LENGTH
    standardize := E.custom_standardization
    ngrams := 1
    vocab := E.adaptVocab E.textData }

/-- The validation/test pair produced by `valid_test_split` on the
(post-reduction) validation mapping. -/
def splitValidData (cfg : Settings) (E : Externals) : Data × Data :=
  E.valid_test_split (reducedData cfg E).2

/-- The validation dataset the script builds from the post-split
validation mapping. -/
def builtValidDataset (cfg : Settings) (E : Externals) : Dataset :=
  make_dataset ((splitValidData cfg E).1.map Prod.fst)
    ((splitValidData cfg E).1.map Prod.snd) cfg.VALID_SET_AUG (adaptedTokenizer cfg E)

/-- Event predicate: loading of the text-corpus JSON file. -/
def Event.isTextJsonLoad : Event → Bool
  | .jsonLoad .textJson _ => true
  | _ => false

/-- Event predicate: the tokenizer adaptation pass. -/
def Event.isAdapt : Event → Bool
  | .adaptTokenizer _ => true
  | _ => false

/-- Event predicate: any dataset construction. -/
def Event.isMakeDataset : Event → Bool
  | .makeDataset _ _ => true
  | _ => false

/-- Event predicate: the decoder-block construction. -/
def Event.isMkDecoder : Event → Bool
  | .mkDecoder _ _ _ _ => true
  | _ => false

/-- Event predicate: a model evaluation pass. -/
def Event.isEvaluate : Event → Bool
  | .evaluate _ _ _ => true
  | _ => false

/-- Event predicate: the fit loop. -/
def Event.isFit : Event → Bool
  | .fit _ _ _ _ => true
  | _ => false

/-- Event predicate: any persistence write (history, weights, tracker
mirror, training config, tokenizer artifact). -/
def Event.isPersist : Event → Bool
  | .writeHistoryJson _ _ => true
  | .saveWeights _ => true
  | .runSaveFile _ => true
  | .writeConfigJson _ _ => true
  | .saveTokenizer _ _ => true
  | _ => false

/-- Event predicate: a dataset construction or evaluation of the test split. -/
def Event.isTestSplitWork : Event → Bool
  | .makeDataset .test _ => true
  | .evaluate .test _ _ => true
  | _ => false

/-- Event predicate: the print of the validation count after the
validation/test split. -/
def Event.isPrintValidAfterSplit : Event → Bool
  | .print (.numValidAfterSplit _) => true
  | _ => false

/-- All keys of all `wandb.log` calls issued by the script body, in order. -/
def loggedKeys (tr : List Event) : List String :=
  (tr.filterMap fun e =>
    match e with
    | .wandbLog kvs => some (kvs.map Prod.fst)
    | _ => none).flatten

/-- The tags of the lines printed to standard output, in order. -/
def printedLineKinds (tr : List Event) : List PKind :=
  tr.filterMap fun e =>
    match e with
    | .print l => some l.kind
    | _ => none

/-- The sample-count pairs reported to the tracker (the only `wandb.log`
calls whose values are sample counts). -/
def reportedSampleCounts (tr : List Event) : List (Nat × Nat) :=
  tr.filterMap fun e =>
    match e with
    | .wandbLog [(_, LogValue.nat a), (_, LogValue.nat b)] => some (a, b)
    | _ => none

/-- The training sample counts printed to standard output. -/
def printedTrainCounts (tr : List Event) : List Nat :=
  tr.filterMap fun e =>
    match e with
    | .print (.numTrainSamples n) => some n
    | _ => none

/-- The validation sample counts printed to standard output. -/
def printedValidCounts (tr : List Event) : List Nat :=
  tr.filterMap fun e =>
    match e with
    | .print (.numValidSamples n) => some n
    | _ => none

/-- The post-split validation counts printed to standard output. -/
def printedValidAfterSplitCounts (tr : List Event) : List Nat :=
  tr.filterMap fun e =>
    match e with
    | .print (.numValidAfterSplit n) => some n
    | _ => none

/-- The callback lists installed by each fit call of the trace. -/
def fitCallbackLists (tr : List Event) : List (List CallbackName) :=
  tr.filterMap fun e =>
    match e with
    | .fit _ _ _ cbs => some cbs
    | _ => none

/-- The validation datasets handed to fit calls. -/
def fitValidDatasets (tr : List Event) : List Dataset :=
  tr.filterMap fun e =>
    match e with
    | .fit _ v _ _ => some v
    | _ => none

/-- The datasets on which a validation-split evaluation runs. -/
def evaluateValidDatasets (tr : List Event) : List Dataset :=
  tr.filterMap fun e =>
    match e with
    | .evaluate .valid ds _ => some ds
    | _ => none

/-- The split names of all dataset constructions, in order. -/
def madeDatasetSplits (tr : List Event) : List SplitName :=
  tr.filterMap fun e =>
    match e with
    | .makeDataset s _ => some s
    | _ => none

/-- The contents of all training-configuration JSON writes. -/
def writtenConfigs (tr : List Event) : List (List (String × Nat)) :=
  tr.filterMap fun e =>
    match e with
    | .writeConfigJson _ c => some c
    | _ => none

/-- External behaviour identical to `E` except that reading the API-key
file raises. -/
def Externals.failApiKeyRead (E : Externals) (e : Err) : ExtF :=
  { E.toF with readApiKeyFile := Except.error e }

/-- External behaviour identical to `E` except that the tracker login
raises. -/
def Externals.failLogin (E : Externals) (e : Err) : ExtF :=
  { E.toF with loginResult := fun _ => Except.error e }

/-- External behaviour identical to `E` except that loading the training
JSON raises (missing file or malformed JSON). -/
def Externals.failTrainLoad (E : Externals) (e : Err) : ExtF :=
  { E.toF with loadTrain := Except.error e }

/-- External behaviour identical to `E` except that the framework fit
loop raises. -/
def Externals.failFit (E : Externals) (e : Err) : ExtF :=
  { E.toF with fitResult := Except.error e }

/-- External behaviour identical to `E` except that saving the model
weights raises. -/
def Externals.failSaveWeights (E : Externals) (e : Err) : ExtF :=
  { E.toF with saveWeightsResult := Except.error e }

/-- Concrete settings used to instantiate theorems with hypotheses. -/
def sampleSettings : Settings :=
  { train_data_json_path := "train.json"
    valid_data_json_path := "valid.json"
    text_data_json_path := "text.json"
    SAVE_DIR := "save/"
    REDUCE_DATASET := false
    TEST_SET := true
    TRAIN_SET_AUG := true
    VALID_SET_AUG := false
    IMAGE_SIZE := 299
    MAX_VOCAB_SIZE := 20000
    SEQ_LENGTH := 25
    EMBED_DIM := 512
    NUM_HEADS := 8
    FF_DIM := 1024
    BATCH_SIZE := 64
    EPOCHS := 10 }

/-- Concrete external behaviour used to instantiate theorems with
hypotheses. -/
def sampleExternals : Externals :=
  { apiKeyContents := "secret-key "
    tfVersion := "2.12.0"
    numGPUs := 1
    trainData := [("img1.jpg", ["a cat"]), ("img2.jpg", ["a dog"])]
    validData := [("img3.jpg", ["a cat"]), ("img4.jpg", ["a dog"])]
    textData := ["a cat", "a dog"]
    custom_standardization := fun s => s
    adaptVocab := fun corpus => adaptVocabulary (fun s => s) corpus
    reduce_dataset_dim := fun t v => (t.take 1, v.take 1)
    valid_test_split := fun v => (v.take 1, v.drop 1)
    fitHistory := [("loss", [5, 4])]
    evalMetrics := fun s => match s with | .train => (1, 2) | .valid => (3, 4) | .test => (5, 6) }

/-- Claim C1: tokenizer adaptation happens exactly once, after the text
corpus is loaded and before any of the train/validation/test dataset
constructions, and the adapted vocabulary size is the `vocab_size`
hyperparameter passed to the decoder block. -/
theorem c1_adapt_once_before_datasets (cfg : Settings) (E : Externals) :
    ((training_run cfg E).filter
        (fun e => e.isTextJsonLoad || e.isAdapt || e.isMakeDataset)).map Event.kind =
      [EKind.jsonLoad, EKind.adaptTokenizer, EKind.makeDataset, EKind.makeDataset]
        ++ (if cfg.TEST_SET then [EKind.makeDataset] else [])
    ∧ (training_run cfg E).filter Event.isMkDecoder =
      [Event.mkDecoder cfg.EMBED_DIM cfg.FF_DIM cfg.NUM_HEADS
        (adaptedTokenizer cfg E).get_vocabulary.length] := by
  obtain ⟨tp, vp, xp, sd, rd, ts, ta, va, im, mv, sl, ed, nh, ff, bs, ep⟩ := cfg
  cases rd <;> cases ts <;> exact ⟨rfl, rfl⟩

/-- Claim C2: test-metric keys reach the tracker and standard output
exactly when `TEST_SET` is enabled, in which case the test dataset is also
built and evaluated; when it is disabled no test-metric key is logged and
no test-metric line is printed. -/
theorem c2_test_metrics_iff_TEST_SET (cfg : Settings) (E : Externals) :
    loggedKeys (training_run cfg E) =
      ["Number of training samples", "Number of validation samples",
       "Train Loss", "Train Accuracy", "Valid Loss", "Valid Accuracy"]
        ++ (if cfg.TEST_SET then ["Test Loss", "Test Accuracy"] else [])
    ∧ printedLineKinds (training_run cfg E) =
      [PKind.tfVersion, PKind.numGPUs, PKind.numTrainSamples, PKind.numValidSamples,
       PKind.numValidAfterSplit, PKind.numTestSamples, PKind.trainMetrics, PKind.validMetrics]
        ++ (if cfg.TEST_SET then [PKind.testMetrics] else [])
    ∧ ((training_run cfg E).filter Event.isTestSplitWork).map Event.kind =
      (if cfg.TEST_SET then [EKind.makeDataset, EKind.evaluate] else []) := by
  obtain ⟨tp, vp, xp, sd, rd, ts, ta, va, im, mv, sl, ed, nh, ff, bs, ep⟩ := cfg
  cases rd <;> cases ts <;> exact ⟨rfl, rfl, rfl⟩

/-- Claim C3: with the adaptation pass modelled from the spec, the
`VOCAB_SIZE` field written into `config_train.json` equals the size of the
fitted vocabulary, namely the count of unique standardized corpus tokens
plus the reserved tokens, and it is fixed at adaptation time — the single
adapt pass precedes the validation/test split report and every dataset
construction. -/
theorem c3_config_vocab_size (cfg : Settings) (E : Externals) :
    writtenConfigs (training_run cfg
        { E with adaptVocab := adaptVocabulary E.custom_standardization }) =
      [[("IMAGE_SIZE", cfg.IMAGE_SIZE),
        ("MAX_VOCAB_SIZE", cfg.MAX_VOCAB_SIZE),
        ("SEQ_LENGTH", cfg.SEQ_LENGTH),
        ("EMBED_DIM", cfg.EMBED_DIM),
        ("NUM_HEADS", cfg.NUM_HEADS),
        ("FF_DIM", cfg.FF_DIM),
        ("BATCH_SIZE", cfg.BATCH_SIZE),
        ("EPOCHS", cfg.EPOCHS),
        ("VOCAB_SIZE", (adaptVocabulary E.custom_standardization E.textData).length)]]
    ∧ (adaptVocabulary E.custom_standardization E.textData).length =
        reservedTokens.length + (uniqueTokens E.custom_standardization E.textData).length
    ∧ ((training_run cfg
          { E with adaptVocab := adaptVocabulary E.custom_standardization }).filter
        (fun e => e.isAdapt || e.isPrintValidAfterSplit || e.isMakeDataset)).map Event.kind =
      [EKind.adaptTokenizer, EKind.print, EKind.makeDataset, EKind.makeDataset]
        ++ (if cfg.TEST_SET then [EKind.makeDataset] else []) := by
  obtain ⟨tp, vp, xp, sd, rd, ts, ta, va, im, mv, sl, ed, nh, ff, bs, ep⟩ := cfg
  refine ⟨?_, by simp [adaptVocabulary], ?_⟩ <;> cases rd <;> cases ts <;> rfl

/-- Claim C5: persistence happens after the definitive evaluations and
writes, in order, the training history JSON, the model weights (mirrored
to the tracker), the flat training-configuration JSON, and the fitted
tokenizer state — all under the single configured save directory. -/
theorem c5_persistence_order (cfg : Settings) (E : Externals) :
    ((training_run cfg E).filter (fun e => e.isEvaluate || e.isPersist)).map Event.kind =
      [EKind.evaluate, EKind.evaluate] ++ (if cfg.TEST_SET then [EKind.evaluate] else [])
        ++ [EKind.writeHistoryJson, EKind.saveWeights, EKind.runSaveFile,
            EKind.writeConfigJson, EKind.saveTokenizer]
    ∧ (training_run cfg E).filter Event.isPersist =
      [Event.writeHistoryJson (cfg.SAVE_DIR ++ "history.json") E.fitHistory,
       Event.saveWeights (cfg.SAVE_DIR ++ "big_model_weights_coco.weights.h5"),
       Event.runSaveFile (cfg.SAVE_DIR ++ "big_model_weights_coco.weights.h5"),
       Event.writeConfigJson (cfg.SAVE_DIR ++ "config_train.json")
         [("IMAGE_SIZE", cfg.IMAGE_SIZE),
          ("MAX_VOCAB_SIZE", cfg.MAX_VOCAB_SIZE),
          ("SEQ_LENGTH", cfg.SEQ_LENGTH),
          ("EMBED_DIM", cfg.EMBED_DIM),
          ("NUM_HEADS", cfg.NUM_HEADS),
          ("FF_DIM", cfg.FF_DIM),
          ("BATCH_SIZE", cfg.BATCH_SIZE),
          ("EPOCHS", cfg.EPOCHS),
          ("VOCAB_SIZE", (adaptedTokenizer cfg E).get_vocabulary.length)],
       Event.saveTokenizer cfg.SAVE_DIR (adaptedTokenizer cfg E)] := by
  obtain ⟨tp, vp, xp, sd, rd, ts, ta, va, im, mv, sl, ed, nh, ff, bs, ep⟩ := cfg
  cases rd <;> cases ts <;> exact ⟨rfl, rfl⟩

/-- Claim C6: failures at the external interfaces are never caught — a
failing API-key read, tracker login, dataset-JSON load, framework fit, or
artifact write each propagates out of the script as the uncaught
exception, terminating the run at that point; a failure during
persistence leaves a partial artifact set (here: history written, weights
and everything after them absent). -/
theorem c6_errors_propagate_uncaught (cfg : Settings) (E : Externals) (e : Err) :
    training_script cfg (E.failApiKeyRead e) = ([Event.openRead "apikey.txt"], some e)
    ∧ training_script cfg (E.failLogin e) =
      ([Event.openRead "apikey.txt", Event.wandbLogin E.apiKeyContents.trim], some e)
    ∧ training_script cfg (E.failTrainLoad e) =
      ([Event.openRead "apikey.txt", Event.wandbLogin E.apiKeyContents.trim,
        Event.wandbInit "image-labeling-project" "dulcich",
        Event.print (.tfVersion E.tfVersion), Event.print (.numGPUs E.numGPUs),
        Event.jsonLoad .trainJson cfg.train_data_json_path], some e)
    ∧ (training_script cfg (E.failFit e)).2 = some e
    ∧ (training_script cfg (E.failFit e)).1.filter Event.isPersist = []
    ∧ ((training_script cfg (E.failFit e)).1.filter Event.isFit).map Event.kind = [EKind.fit]
    ∧ (training_script cfg (E.failSaveWeights e)).2 = some e
    ∧ (training_script cfg (E.failSaveWeights e)).1.filter Event.isPersist =
      [Event.writeHistoryJson (cfg.SAVE_DIR ++ "history.json") E.fitHistory,
       Event.saveWeights (cfg.SAVE_DIR ++ "big_model_weights_coco.weights.h5")] := by
  obtain ⟨tp, vp, xp, sd, rd, ts, ta, va, im, mv, sl, ed, nh, ff, bs, ep⟩ := cfg
  cases rd <;> cases ts <;> exact ⟨rfl, rfl, rfl, rfl, rfl, rfl, rfl, rfl⟩

/-- Claim C7: the early-stopping callback monitors a validation criterion
with a patience window of 3 epochs and best-weights restoration, and the
fit loop installs it together with the logging callback. -/
theorem c7_early_stopping_config (cfg : Settings) (E : Externals) :
    early_stopping.patience = 3
    ∧ early_stopping.restore_best_weights = true
    ∧ early_stopping.monitor = "val_loss"
    ∧ fitCallbackLists (training_run cfg E) =
      [[CallbackName.early_stopping, CallbackName.wandb_callback]] := by
  obtain ⟨tp, vp, xp, sd, rd, ts, ta, va, im, mv, sl, ed, nh, ff, bs, ep⟩ := cfg
  cases rd <;> cases ts <;> exact ⟨rfl, rfl, rfl, rfl⟩

/-- Claim C8: for two runs with the same reduction flag and the same input
mappings (hence the same external reduction policy), the sample counts
reported to the tracker and printed to standard output are identical, and
each equals the size of the corresponding input mapping after the optional
reduction step. -/
theorem c8_reported_counts_deterministic (cfg1 cfg2 : Settings) (E : Externals)
    (hred : cfg1.REDUCE_DATASET = cfg2.REDUCE_DATASET) :
    reportedSampleCounts (training_run cfg1 E) = reportedSampleCounts (training_run cfg2 E)
    ∧ printedTrainCounts (training_run cfg1 E) = printedTrainCounts (training_run cfg2 E)
    ∧ printedValidCounts (training_run cfg1 E) = printedValidCounts (training_run cfg2 E)
    ∧ reportedSampleCounts (training_run cfg1 E) =
      [((reducedData cfg1 E).1.length, (reducedData cfg1 E).2.length)]
    ∧ printedTrainCounts (training_run cfg1 E) = [(reducedData cfg1 E).1.length]
    ∧ printedValidCounts (training_run cfg1 E) = [(reducedData cfg1 E).2.length] := by
  obtain ⟨tp, vp, xp, sd, rd, ts, ta, va, im, mv, sl, ed, nh, ff, bs, ep⟩ := cfg1
  obtain ⟨tp2, vp2, xp2, sd2, rd2, ts2, ta2, va2, im2, mv2, sl2, ed2, nh2, ff2, bs2, ep2⟩ := cfg2
  simp only at hred
  subst hred
  cases rd <;> cases ts <;> cases ts2 <;> exact ⟨rfl, rfl, rfl, rfl, rfl, rfl⟩

/-- Witness for C8 at concrete settings and external behaviour. -/
theorem c8_reported_counts_deterministic_witness :
    sampleSettings.REDUCE_DATASET = sampleSettings.REDUCE_DATASET
    ∧ (reportedSampleCounts (training_run sampleSettings sampleExternals) =
        reportedSampleCounts (training_run sampleSettings sampleExternals)
      ∧ printedTrainCounts (training_run sampleSettings sampleExternals) =
        printedTrainCounts (training_run sampleSettings sampleExternals)
      ∧ printedValidCounts (training_run sampleSettings sampleExternals) =
        printedValidCounts (training_run sampleSettings sampleExternals)
      ∧ reportedSampleCounts (training_run sampleSettings sampleExternals) =
        [((reducedData sampleSettings sampleExternals).1.length,
          (reducedData sampleSettings sampleExternals).2.length)]
      ∧ printedTrainCounts (training_run sampleSettings sampleExternals) =
        [(reducedData sampleSettings sampleExternals).1.length]
      ∧ printedValidCounts (training_run sampleSettings sampleExternals) =
        [(reducedData sampleSettings sampleExternals).2.length]) :=
  ⟨rfl, c8_reported_counts_deterministic sampleSettings sampleSettings sampleExternals rfl⟩

/-- Claim C9: the validation/test split is applied on every run,
independently of `TEST_SET` — the validation dataset handed to the fit
loop and to the definitive validation evaluation is always built from the
post-split validation mapping, the post-split size is what gets printed,
and with `TEST_SET` disabled only the train and validation datasets are
constructed, the carved-out test portion being discarded. -/
theorem c9_split_unconditional (cfg : Settings) (E : Externals) :
    fitValidDatasets (training_run cfg E) = [builtValidDataset cfg E]
    ∧ evaluateValidDatasets (training_run cfg E) = [builtValidDataset cfg E]
    ∧ printedValidAfterSplitCounts (training_run cfg E) = [(splitValidData cfg E).1.length]
    ∧ madeDatasetSplits (training_run cfg E) =
      [SplitName.train, SplitName.valid] ++ (if cfg.TEST_SET then [SplitName.test] else []) := by
  obtain ⟨tp, vp, xp, sd, rd, ts, ta, va, im, mv, sl, ed, nh, ff, bs, ep⟩ := cfg
  cases rd <;> cases ts <;> exact ⟨rfl, rfl, rfl, rfl⟩

/-- Counterexample for claim C4: on an epoch whose logs carry loss 1,
accuracy 2, validation loss 3 and validation accuracy 4, the epoch-end
callback forwards only training loss, validation loss and validation
accuracy — the training accuracy value 2 is not forwarded under any key
(the `epoch_train_accuracy` entry is commented out in the source), so the
callback does not forward "the loss and accuracy" per epoch as claimed. -/
theorem c4_counterexample :
    wandb_callback.on_epoch_end 0 [("loss", 1), ("acc", 2), ("val_loss", 3), ("val_acc", 4)] =
      Except.ok [("epoch_train_loss", LogValue.num 1),
                 ("epoch_valid_loss", LogValue.num 3),
                 ("epoch_valid_accuracy", LogValue.num 4)]
    ∧ LogValue.num 2 ∉
      ([("epoch_train_loss", LogValue.num 1),
        ("epoch_valid_loss", LogValue.num 3),
        ("epoch_valid_accuracy", LogValue.num 4)].map Prod.snd)
    ∧ "epoch_train_accuracy" ∉
      ([("epoch_train_loss", LogValue.num 1),
        ("epoch_valid_loss", LogValue.num 3),
        ("epoch_valid_accuracy", LogValue.num 4)].map Prod.fst) := by
  refine ⟨rfl, ?_, ?_⟩ <;> decide

/-- Claim C4 as amended: the logging callback forwards, per batch, the
training loss and training accuracy, and, per epoch, the training loss
plus the validation loss and validation accuracy — but not the per-epoch
training accuracy, whose logging line is commented out. -/
theorem c4_amended_callback_keys (l a vl va : Int) :
    wandb_callback.on_batch_end 7 [("loss", l), ("acc", a)] =
      Except.ok [("batch_train_loss", LogValue.num l),
                 ("batch_train_accuracy", LogValue.num a)]
    ∧ wandb_callback.on_epoch_end 7 [("loss", l), ("acc", a), ("val_loss", vl), ("val_acc", va)] =
      Except.ok [("epoch_train_loss", LogValue.num l),
                 ("epoch_valid_loss", LogValue.num vl),
                 ("epoch_valid_accuracy", LogValue.num va)] :=
  ⟨rfl, rfl⟩

/-- Counterexample for claim C10: the per-epoch callback is not total on
logs without validation metrics — on an empty logs mapping (which in
particular lacks validation metrics) it raises `KeyError` because it also
indexes the `loss` key directly. -/
theorem c10_counterexample :
    wandb_callback.on_epoch_end 0 [] = Except.error "KeyError: loss" := rfl

/-- Claim C10 as amended: the per-epoch callback reads the validation
metrics with a defaulting lookup and logs `None` when they are missing,
so missing validation metrics never make it raise — but it still indexes
the `loss` key directly and raises `KeyError` when that key is absent;
the per-batch callback indexes both `loss` and `acc` directly and raises
`KeyError` for any batch logs lacking either key. -/
theorem c10_amended_callback_totality (logsA logsB logsC : List (String × Int)) (l c : Int)
    (hA : logsA.lookup "loss" = some l)
    (hB : logsB.lookup "loss" = none)
    (hC1 : logsC.lookup "loss" = some c)
    (hC2 : logsC.lookup "acc" = none) :
    wandb_callback.on_epoch_end 0 logsA =
      Except.ok [("epoch_train_loss", LogValue.num l),
                 ("epoch_valid_loss", logs_get logsA "val_loss"),
                 ("epoch_valid_accuracy", logs_get logsA "val_acc")]
    ∧ wandb_callback.on_epoch_end 0 logsB = Except.error "KeyError: loss"
    ∧ wandb_callback.on_batch_end 0 logsB = Except.error "KeyError: loss"
    ∧ wandb_callback.on_batch_end 0 logsC = Except.error "KeyError: acc" := by
  refine ⟨?_, ?_, ?_, ?_⟩ <;>
    simp [wandb_callback, wandb_on_epoch_end, wandb_on_batch_end, dict_index, hA, hB, hC1, hC2]

/-- Witness for the amended C10 at concrete logs mappings. -/
theorem c10_amended_callback_totality_witness :
    ([(("loss" : String), (1 : Int))].lookup "loss" = some 1
      ∧ ([] : List (String × Int)).lookup "loss" = none
      ∧ [(("loss" : String), (5 : Int))].lookup "loss" = some 5
      ∧ [(("loss" : String), (5 : Int))].lookup "acc" = none)
    ∧ (wandb_callback.on_epoch_end 0 [("loss", 1)] =
        Except.ok [("epoch_train_loss", LogValue.num 1),
                   ("epoch_valid_loss", logs_get [("loss", 1)] "val_loss"),
                   ("epoch_valid_accuracy", logs_get [("loss", 1)] "val_acc")]
      ∧ wandb_callback.on_epoch_end 0 [] = Except.error "KeyError: loss"
      ∧ wandb_callback.on_batch_end 0 [] = Except.error "KeyError: loss"
      ∧ wandb_callback.on_batch_end 0 [("loss", 5)] = Except.error "KeyError: acc") :=
  ⟨⟨by decide, by decide, by decide, by decide⟩,
    c10_amended_callback_totality [("loss", 1)] [] [("loss", 5)] 1 5
      (by decide) (by decide) (by decide) (by decide)⟩
